import Mathlib

/-!
Verification of the task definition and validation core of the `yoot`
pipeline runner (`src/yoot/task.py`, `src/yoot/experiment.py`), as a
shallow embedding in Lean.

Modelling conventions:
* Python `set[str]` becomes `Finset String`; a Python `dict` whose values
  the code never inspects structurally becomes an association list
  `List (String × PyValue)` (iteration order preserved, truthiness is
  non-emptiness).
* Fallible Python code (raising) becomes `Except YootError`.  A pydantic
  `ValidationError` arising inside a modelled constructor or parser is
  `Except Unit` at the point it is raised, and is converted to the
  `TaskDefinitionError` the source wraps it into.
* `inspect.Signature.from_callable(task.func)`: a callable is represented
  by the `Finset String` of its formal parameter names (`argNames`), the
  only part of it the validation core consumes.  `param_schema.parse_obj`
  is represented by an optional parse function returning `Option TParams`
  (`Option.none` = pydantic `ValidationError`).
* Python set iteration order (used by `", ".join(...)` over sets in error
  messages) is unspecified; it is modelled deterministically as the sorted
  order of the set.
* experiment.py cannot be loaded at all (its `get_task` has a
  whitespace-only body, a `SyntaxError` at parse time, and its `tasks`
  annotation references the never-imported `TaskSchema`), so that module
  is modelled by its unconditional import-time failures rather than by
  executable definitions.
-/

namespace Yoot

/-- An arbitrary Python value, as far as the validation core can observe it. -/
inductive PyValue where
  | int : Int → PyValue
  | str : String → PyValue
deriving DecidableEq, Repr

/-- A raw `params` mapping: `dict[str, Any]`, keys in insertion order. -/
abbrev ParamsMap := List (String × PyValue)

/-- The exceptions the modelled code can raise.  `taskDefinitionError` is
`yoot.exceptions.TaskDefinitionError`, `nameError` is the builtin
`NameError` raised when an undefined identifier is read. -/
inductive YootError where
  | taskDefinitionError (msg : String)
  | nameError (ident : String)
deriving DecidableEq, Repr

instance {ε α : Type} [DecidableEq ε] [DecidableEq α] :
    DecidableEq (Except ε α) := fun x y =>
  match x, y with
  | .ok a, .ok b =>
    if h : a = b then isTrue (by rw [h])
    else isFalse (by intro hc; cases hc; exact h rfl)
  | .error a, .error b =>
    if h : a = b then isTrue (by rw [h])
    else isFalse (by intro hc; cases hc; exact h rfl)
  | .ok _, .error _ => isFalse (by intro hc; cases hc)
  | .error _, .ok _ => isFalse (by intro hc; cases hc)

/-- `TaskMetadata` (task.py): declared inputs, outputs and optional raw
parameter values.  `inputs`/`outputs` default to empty, `params` to `None`. -/
structure TaskMetadata where
  inputs : Finset String := ∅
  outputs : Finset String := ∅
  params : Option ParamsMap := none
deriving DecidableEq

/-- `TaskSchema` (task.py): raw user-authored schema with the
`"<file>:<symbol>"` function reference string. -/
structure TaskSchema extends TaskMetadata where
  func : String
deriving DecidableEq

/-- `ValidatedTaskSchema` (task.py): the resolved schema.  Its pydantic
fields are `file : FilePath` (must be an existing file) and `name : str`. -/
structure ValidatedTaskSchema extends TaskMetadata where
  file : String
  name : String
deriving DecidableEq

/-- Helper for `pySplit`: split a character list at every occurrence of
`sep`.  The result is never empty. -/
def splitChars (sep : Char) : List Char → List (List Char)
  | [] => [[]]
  | c :: cs =>
    match splitChars sep cs with
    | [] => [[]]
    | l :: ls => if c = sep then [] :: l :: ls else (c :: l) :: ls

/-- Python's `str.split(sep)` for a one-character separator: the maximal
runs between occurrences of `sep`, keeping empty components
(`"".split(":") == [""]`, `":f".split(":") == ["", "f"]`). -/
def pySplit (sep : Char) (s : String) : List String :=
  (splitChars sep s.data).map String.mk

/-- Pydantic construction of a `ValidatedTaskSchema` from keyword
arguments.  `fileExists` is the file system seen by the `FilePath`
validator.  Pydantic ignores extra keywords by default, so only the
keywords matching declared fields appear here, as `Option`s: a missing
required field, or a `file` that is not an existing file path, raises
`ValidationError` (modelled as `Except.error ()`). -/
def mkValidatedTaskSchema (fileExists : String → Bool)
    (file : Option String) (name : Option String)
    (inputs outputs : Finset String) (params : Option ParamsMap) :
    Except Unit ValidatedTaskSchema :=
  match file, name with
  | some f, some n =>
    if fileExists f then
      .ok { file := f, name := n, inputs := inputs, outputs := outputs, params := params }
    else
      .error ()
  | _, _ => .error ()

/-- `ValidatedTaskSchema.from_unvalidated` (task.py).  The source splits
`schema.func` on `":"`, rejects a split of length ≠ 2, and then calls
`cls(file=Path(file), func_name=func_name, **schema.model_dump())`.
Note the call site passes the keyword `func_name` (not a field, ignored
as extra, like the dumped `func`) and never passes the required field
`name`, so the pydantic constructor always raises `ValidationError`,
re-raised as `TaskDefinitionError("Invalid task schema.")`. -/
def ValidatedTaskSchema.from_unvalidated (fileExists : String → Bool)
    (schema : TaskSchema) : Except YootError ValidatedTaskSchema :=
  match pySplit ':' schema.func with
  | [file, _func_name] =>
    match mkValidatedTaskSchema fileExists (some file) none
        schema.inputs schema.outputs schema.params with
    | .ok v => .ok v
    | .error _ => .error (.taskDefinitionError "Invalid task schema.")
  | _ =>
    .error (.taskDefinitionError ("Invalid function definition: " ++ schema.func))

/-- `TaskDefinition` (task.py): the declarative contract for one task. -/
structure TaskDefinition extends TaskMetadata where
  name : String
deriving DecidableEq

/-- `TaskDefinition._validate_schema` (task.py).  After the split check the
body calls `importlib.util.spec_from_file_location("my_module", file_path)`,
but `file_path` is an undefined identifier (the split bound `file`), so
every well-formed reference raises `NameError` before any loading happens. -/
def TaskDefinition._validate_schema (_self : TaskDefinition)
    (schema : TaskSchema) : Except YootError Unit :=
  match pySplit ':' schema.func with
  | [_file, _func_name] => .error (.nameError "file_path")
  | _ =>
    .error (.taskDefinitionError ("Invalid function definition: " ++ schema.func))

/-- `Task` (task.py): a name bound to a callable implementation.  The
callable itself is represented by what the validator observes of it:
`argNames` is the set of formal parameter names that
`inspect.Signature.from_callable(task.func)` exposes, and `param_schema`
is the optional parameter model, represented by its `parse_obj` method
(`Option.none` result = pydantic `ValidationError`). -/
structure Task (TParams : Type) where
  name : String
  argNames : Finset String
  param_schema : Option (ParamsMap → Option TParams) := none

/-- `ValidatedTaskDefinition` (task.py): extends `TaskDefinition` but
overrides `params` with the parsed, typed parameter object. -/
structure ValidatedTaskDefinition (TParams : Type) where
  name : String
  inputs : Finset String := ∅
  outputs : Finset String := ∅
  params : Option TParams := none
deriving DecidableEq

/-- Python truthiness of an optional dict: `None` and `{}` are falsy. -/
def paramsTruthy : Option ParamsMap → Bool
  | none => false
  | some l => !l.isEmpty

/-- The parameter-binding step of `TaskDefinition.validate` (task.py):
`if self.params and task.param_schema: params = task.param_schema.parse_obj(self.params)
... else: params = None`.  `Except.error ()` is the pydantic
`ValidationError` escaping `parse_obj`. -/
def parseParams {TParams : Type} (raw : Option ParamsMap)
    (schema : Option (ParamsMap → Option TParams)) :
    Except Unit (Option TParams) :=
  match raw, schema with
  | some l, some parse_obj =>
    if l.isEmpty then .ok none
    else
      match parse_obj l with
      | some p => .ok (some p)
      | none => .error ()
  | _, _ => .ok none

/-- `TaskDefinition.validate` (task.py).  The source's working set
`arg_names` starts as the callable's parameter names, has `"tracker"`
removed after the membership check, and later `"params"` discarded; here
the final set is written as the composition of the two erasures.  The
`schema` argument is accepted and unused, as in the source. -/
def TaskDefinition.validate {TParams : Type} (self : TaskDefinition)
    (task : Task TParams) (_schema : TaskSchema) :
    Except YootError (ValidatedTaskDefinition TParams) :=
  if "tracker" ∉ task.argNames then
    .error (.taskDefinitionError
      ("Task " ++ task.name ++ " is missing the tracker parameter."))
  else if paramsTruthy self.params && task.param_schema.isNone then
    .error (.taskDefinitionError
      ("Task " ++ task.name ++ " does not accept parameters but Task definition defines them."))
  else if self.params.isNone && task.param_schema.isSome then
    .error (.taskDefinitionError
      ("Task " ++ task.name ++ " requires parameters but Task definition does not define them."))
  else
    match parseParams self.params task.param_schema with
    | .error _ =>
      .error (.taskDefinitionError
        ("Task " ++ task.name ++ " parameters are invalid."))
    | .ok params =>
      if (task.argNames.erase "tracker").erase "params" ≠ self.inputs then
        .error (.taskDefinitionError
          ("Task " ++ task.name ++ " inputs do not match the Task definition."))
      else
        .ok { name := self.name, params := params,
              inputs := self.inputs, outputs := self.outputs }

/-- Boolean lexicographic order on character lists (by character code),
written by structural recursion so that it evaluates inside the kernel. -/
def listLeB : List Char → List Char → Bool
  | [], _ => true
  | _ :: _, [] => false
  | a :: as, b :: bs => decide (a < b) || (a == b && listLeB as bs)

lemma listLeB_cons_iff (a b : Char) (as bs : List Char) :
    listLeB (a :: as) (b :: bs) = true ↔
      a < b ∨ (a = b ∧ listLeB as bs = true) := by
  simp [listLeB]

lemma listLeB_total : ∀ l₁ l₂ : List Char,
    listLeB l₁ l₂ = true ∨ listLeB l₂ l₁ = true
  | [], _ => by left; rfl
  | _ :: _, [] => by right; rfl
  | a :: as, b :: bs => by
    rcases lt_trichotomy a b with h | h | h
    · left; rw [listLeB_cons_iff]; exact Or.inl h
    · rcases listLeB_total as bs with ih | ih
      · left; rw [listLeB_cons_iff]; exact Or.inr ⟨h, ih⟩
      · right; rw [listLeB_cons_iff]; exact Or.inr ⟨h.symm, ih⟩
    · right; rw [listLeB_cons_iff]; exact Or.inl h

lemma listLeB_trans : ∀ l₁ l₂ l₃ : List Char, listLeB l₁ l₂ = true →
    listLeB l₂ l₃ = true → listLeB l₁ l₃ = true
  | [], _, _, _, _ => rfl
  | _ :: _, [], _, h, _ => by cases h
  | _ :: _, _ :: _, [], _, h => by cases h
  | a :: as, b :: bs, c :: cs, h₁, h₂ => by
    rw [listLeB_cons_iff] at h₁ h₂ ⊢
    rcases h₁ with h₁ | ⟨h₁, h₁'⟩ <;> rcases h₂ with h₂ | ⟨h₂, h₂'⟩
    · exact Or.inl (h₁.trans h₂)
    · exact Or.inl (h₂ ▸ h₁)
    · exact Or.inl (h₁ ▸ h₂)
    · exact Or.inr ⟨h₁.trans h₂, listLeB_trans as bs cs h₁' h₂'⟩

lemma listLeB_antisymm : ∀ l₁ l₂ : List Char, listLeB l₁ l₂ = true →
    listLeB l₂ l₁ = true → l₁ = l₂
  | [], [], _, _ => rfl
  | [], _ :: _, _, h => by cases h
  | _ :: _, [], h, _ => by cases h
  | a :: as, b :: bs, h₁, h₂ => by
    rw [listLeB_cons_iff] at h₁ h₂
    rcases h₁ with h₁ | ⟨h₁, h₁'⟩
    · rcases h₂ with h₂ | ⟨h₂, _⟩
      · exact absurd h₂ (lt_asymm h₁)
      · exact absurd h₁ (by simp [h₂, lt_irrefl])
    · rcases h₂ with h₂ | ⟨_, h₂'⟩
      · exact absurd h₂ (by simp [h₁, lt_irrefl])
      · rw [h₁, listLeB_antisymm as bs h₁' h₂']

/-- A fixed total order on strings (lexicographic by character code),
used to make the modelled set-iteration order deterministic. -/
def strLe (a b : String) : Prop := listLeB a.data b.data = true

instance : DecidableRel strLe := fun a b =>
  inferInstanceAs (Decidable (listLeB a.data b.data = true))

instance : IsTotal String strLe :=
  ⟨fun a b => listLeB_total a.data b.data⟩

instance : IsTrans String strLe :=
  ⟨fun a b c => listLeB_trans a.data b.data c.data⟩

instance : IsAntisymm String strLe :=
  ⟨fun a b h₁ h₂ => by
    cases a; cases b
    exact congrArg String.mk (listLeB_antisymm _ _ h₁ h₂)⟩

/-- The elements of a finite set of strings, in `strLe` order.  This is
the deterministic model of Python's (unspecified) set iteration order. -/
def sortedKeys (s : Finset String) : List String :=
  Quot.liftOn s.val (fun l => l.insertionSort strLe)
    (fun l₁ l₂ h =>
      List.eq_of_perm_of_sorted
        ((l₁.perm_insertionSort strLe).trans
          (h.trans (l₂.perm_insertionSort strLe).symm))
        (List.sorted_insertionSort strLe l₁)
        (List.sorted_insertionSort strLe l₂))

/-- Deterministic stand-in for Python's `", ".join(...)` over a set:
the elements in sorted order (Python set iteration order is unspecified). -/
def joinSet (s : Finset String) : String :=
  String.intercalate ", " (sortedKeys s)

/-- `ValidatedTaskDefinition.validate_outputs` (task.py): exact-set check
of the actual result mapping's keys against the declared outputs. -/
def ValidatedTaskDefinition.validate_outputs {TParams : Type}
    (self : ValidatedTaskDefinition TParams)
    (outputs : List (String × PyValue)) : Except YootError Unit :=
  let actual_outputs_set : Finset String := (outputs.map Prod.fst).toFinset
  let missing_outputs := self.outputs \ actual_outputs_set
  let extra_outputs := actual_outputs_set \ self.outputs
  if missing_outputs ≠ ∅ then
    .error (.taskDefinitionError
      ("Task is missing expected outputs: " ++ joinSet missing_outputs ++ "."))
  else if extra_outputs ≠ ∅ then
    .error (.taskDefinitionError
      ("Task has unexpected outputs: " ++ joinSet extra_outputs ++ "."))
  else
    .ok ()

/-- Python import-time failures of a module that cannot be loaded. -/
inductive PyImportError where
  | syntaxError (msg : String)
  | nameError (ident : String)
deriving DecidableEq, Repr

/-- The Python import of `yoot.experiment` (experiment.py).  The module
can never be loaded: its last definition, `get_task`, ends the file with
a whitespace-only body, so compiling the module raises `SyntaxError`
(an `IndentationError`, "expected an indented block after function
definition") before a single statement of the module runs.  As a result
the `ExperimentSchema` class and its `validate` method never come into
existence, and no aggregate validation can ever be performed in the
program. -/
def importOfYootExperiment : Except PyImportError Unit :=
  .error (.syntaxError
    "expected an indented block after function definition (get_task)")

/-- The class-creation step that would run next if experiment.py parsed:
pydantic eagerly evaluates the field annotation
`tasks: dict[str, TaskSchema]` when the `ExperimentSchema` class body is
executed, and `TaskSchema` is referenced but never imported in
experiment.py (it only imports from pathlib, typing, pydantic and
yoot.exceptions), so even with a parseable `get_task` body this step
would raise `NameError` for the undefined name `TaskSchema`. -/
def experimentSchemaClassCreation : Except PyImportError Unit :=
  .error (.nameError "TaskSchema")

/-- A validated definition with declared outputs a and b, the example used
by the output-validation claims. -/
def vdAB : ValidatedTaskDefinition Unit := { name := "t", outputs := {"a", "b"} }

/-- A raw schema used as the unused `schema` argument of `validate`. -/
def sampleSchema : TaskSchema := { func := "f.py:g" }

/-- A definition declaring input x and output o. -/
def defX : TaskDefinition := { name := "d", inputs := {"x"}, outputs := {"o"} }

/-- A definition declaring inputs x, y and output o. -/
def defXY : TaskDefinition := { name := "d", inputs := {"x", "y"}, outputs := {"o"} }

/-- A task whose callable has formal parameters tracker and x. -/
def taskTX : Task Unit := { name := "t", argNames := {"tracker", "x"} }

/-- A definition supplying a non-empty raw params mapping. -/
def defSupplies : TaskDefinition :=
  { name := "d", params := some [("x", PyValue.int 1)] }

/-- A task whose callable takes only the tracker and has no param schema. -/
def taskPlain : Task Unit := { name := "t", argNames := {"tracker"} }

/-- A definition whose params mapping is present but empty. -/
def defEmptyParams : TaskDefinition :=
  { name := "d", inputs := {"x"}, params := some [] }

/-- A task declaring a parameter schema whose parse always succeeds. -/
def taskSchemaed : Task Unit :=
  { name := "t", argNames := {"tracker", "x"},
    param_schema := some (fun _ => some ()) }

/-- A definition whose declared inputs contain the name params. -/
def defParamsInput : TaskDefinition := { name := "d", inputs := {"params"} }

lemma append_suffix_ne (n s₁ s₂ : String) (h : s₁.length ≠ s₂.length) :
    "Task " ++ n ++ s₁ ≠ "Task " ++ n ++ s₂ := by
  intro he
  have h2 := congrArg String.length he
  simp only [String.length_append] at h2
  exact h (by omega)

lemma validate_eq_of_checks {TParams : Type} (d : TaskDefinition)
    (t : Task TParams) (s : TaskSchema)
    (htracker : "tracker" ∈ t.argNames)
    (h₁ : (paramsTruthy d.params && t.param_schema.isNone) = false)
    (h₂ : (d.params.isNone && t.param_schema.isSome) = false)
    (p : Option TParams)
    (hparse : parseParams d.params t.param_schema = .ok p) :
    d.validate t s =
      if (t.argNames.erase "tracker").erase "params" ≠ d.inputs then
        .error (.taskDefinitionError
          ("Task " ++ t.name ++ " inputs do not match the Task definition."))
      else
        .ok { name := d.name, params := p,
              inputs := d.inputs, outputs := d.outputs } := by
  unfold TaskDefinition.validate
  rw [if_neg (not_not_intro htracker)]
  rw [if_neg (by rw [h₁]; exact Bool.false_ne_true)]
  rw [if_neg (by rw [h₂]; exact Bool.false_ne_true)]
  rw [hparse]

/-- Claim C1: the spec states that for every well-formed
`"<file>:<symbol>"` reference to an existing file exporting the symbol,
resolution succeeds and returns the file path, the symbol name and the
loaded callable.  The code cannot do this: the constructor call in
`from_unvalidated` passes the keyword `func_name` instead of the model's
required field `name`, so pydantic always raises and every call returns
`TaskDefinitionError("Invalid task schema.")`; and `_validate_schema`
reads the undefined identifier `file_path`, so every well-formed
reference raises `NameError`.  This theorem records the code's actual
behaviour: resolution never succeeds, including on the well-formed
reference "tasks.py:my_task" over a file system where every path exists. -/
theorem c1_resolution_never_succeeds :
    (∀ (fileExists : String → Bool) (schema : TaskSchema),
      ∃ e, ValidatedTaskSchema.from_unvalidated fileExists schema = .error e)
    ∧ ValidatedTaskSchema.from_unvalidated (fun _ => true)
        { func := "tasks.py:my_task" } =
        .error (.taskDefinitionError "Invalid task schema.")
    ∧ TaskDefinition._validate_schema { name := "t" }
        { func := "tasks.py:my_task" } = .error (.nameError "file_path") := by
  refine ⟨?_, by decide, by decide⟩
  intro fileExists schema
  unfold ValidatedTaskSchema.from_unvalidated
  split
  · exact ⟨.taskDefinitionError "Invalid task schema.", rfl⟩
  · exact ⟨.taskDefinitionError
      ("Invalid function definition: " ++ schema.func), rfl⟩

/-- Claim C2: when the callable has a tracker parameter, the
parameter-declaration symmetry checks pass and parameter binding succeeds,
validation succeeds if and only if the callable's formal-parameter set
minus tracker and minus params equals the declared inputs exactly, and on
any mismatch it fails with the inputs-do-not-match
`TaskDefinitionError`. -/
theorem c2_inputs_exact_match {TParams : Type} (d : TaskDefinition)
    (t : Task TParams) (s : TaskSchema)
    (htracker : "tracker" ∈ t.argNames)
    (h₁ : (paramsTruthy d.params && t.param_schema.isNone) = false)
    (h₂ : (d.params.isNone && t.param_schema.isSome) = false)
    (p : Option TParams)
    (hparse : parseParams d.params t.param_schema = .ok p) :
    ((∃ v, d.validate t s = .ok v) ↔
      (t.argNames.erase "tracker").erase "params" = d.inputs)
    ∧ ((t.argNames.erase "tracker").erase "params" ≠ d.inputs →
      d.validate t s = .error (.taskDefinitionError
        ("Task " ++ t.name ++ " inputs do not match the Task definition."))) := by
  have hv := validate_eq_of_checks d t s htracker h₁ h₂ p hparse
  by_cases heq : (t.argNames.erase "tracker").erase "params" = d.inputs
  · rw [hv, if_neg (not_not_intro heq)]
    exact ⟨⟨fun _ => heq, fun _ => ⟨_, rfl⟩⟩, fun hne => absurd heq hne⟩
  · rw [hv, if_pos heq]
    refine ⟨⟨?_, fun h => absurd h heq⟩, fun _ => rfl⟩
    rintro ⟨v, hvv⟩
    cases hvv

/-- Witness for C2: a matching pair validates, a definition with an extra
declared input fails with the inputs-do-not-match error. -/
theorem c2_inputs_exact_match_witness :
    ("tracker" ∈ taskTX.argNames
      ∧ (paramsTruthy defX.params && taskTX.param_schema.isNone) = false
      ∧ (defX.params.isNone && taskTX.param_schema.isSome) = false
      ∧ parseParams defX.params taskTX.param_schema = .ok none)
    ∧ (∃ v, defX.validate taskTX sampleSchema = .ok v)
    ∧ defXY.validate taskTX sampleSchema = .error (.taskDefinitionError
        "Task t inputs do not match the Task definition.") :=
  ⟨⟨by decide, by decide, by decide, by decide⟩,
   (c2_inputs_exact_match defX taskTX sampleSchema (by decide) (by decide)
     (by decide) none (by decide)).1.mpr (by decide),
   (c2_inputs_exact_match defXY taskTX sampleSchema (by decide) (by decide)
     (by decide) none (by decide)).2 (by decide)⟩

/-- Claim C3: `validate_outputs` succeeds exactly when the actual result
keys equal the declared outputs as a set; every other outcome is a
`TaskDefinitionError` (never a warning or partial success); and on the
spec's examples with declared outputs a, b: actual keys a alone fail
reporting b missing, keys a, b, c fail reporting c unexpected, and keys
exactly a, b succeed. -/
theorem c3_validate_outputs_exact_set :
    (∀ (TParams : Type) (vd : ValidatedTaskDefinition TParams)
      (out : List (String × PyValue)),
      (vd.validate_outputs out = .ok () ↔
        (out.map Prod.fst).toFinset = vd.outputs))
    ∧ (∀ (TParams : Type) (vd : ValidatedTaskDefinition TParams)
      (out : List (String × PyValue)),
      vd.validate_outputs out = .ok () ∨
        ∃ m, vd.validate_outputs out = .error (.taskDefinitionError m))
    ∧ vdAB.validate_outputs [("a", .int 1)] =
        .error (.taskDefinitionError "Task is missing expected outputs: b.")
    ∧ vdAB.validate_outputs [("a", .int 1), ("b", .int 2), ("c", .int 3)] =
        .error (.taskDefinitionError "Task has unexpected outputs: c.")
    ∧ vdAB.validate_outputs [("a", .int 1), ("b", .int 2)] = .ok () := by
  refine ⟨?_, ?_, by decide, by decide, by decide⟩
  · intro TParams vd out
    simp only [ValidatedTaskDefinition.validate_outputs]
    split_ifs with h1 h2
    · constructor
      · intro h
        cases h
      · intro heq
        exact absurd (by rw [← heq, Finset.sdiff_self]) h1
    · constructor
      · intro h
        cases h
      · intro heq
        exact absurd (by rw [heq, Finset.sdiff_self]) h2
    · rw [not_ne_iff, Finset.sdiff_eq_empty_iff_subset] at h1 h2
      simp only [true_iff, iff_true]
      exact Finset.Subset.antisymm h2 h1
  · intro TParams vd out
    simp only [ValidatedTaskDefinition.validate_outputs]
    split_ifs
    · exact Or.inr ⟨_, rfl⟩
    · exact Or.inr ⟨_, rfl⟩
    · exact Or.inl rfl

/-- Counterexample to C4: the references ":f" and "x:" have exactly one
colon but an empty component, yet they are not rejected with the
malformed-reference error `Invalid function definition: ...`:
`from_unvalidated` reports the generic schema validation failure and
`_validate_schema` reaches the undefined `file_path` read instead. -/
theorem c4_empty_component_not_rejected :
    ValidatedTaskSchema.from_unvalidated (fun _ => true) { func := ":f" } =
        .error (.taskDefinitionError "Invalid task schema.")
    ∧ TaskDefinition._validate_schema { name := "t" } { func := ":f" } =
        .error (.nameError "file_path")
    ∧ TaskDefinition._validate_schema { name := "t" } { func := "x:" } =
        .error (.nameError "file_path") :=
  ⟨by decide, by decide, by decide⟩

/-- Claim C4 (amended): a reference whose colon-split does not have
exactly two components, i.e. with zero colons or with two or more colons,
is rejected with the malformed-reference `TaskDefinitionError`
(`Invalid function definition: ...`) by both resolution entry points;
an empty component beside a single colon does not trigger this check. -/
theorem c4_malformed_split_rejected (fileExists : String → Bool)
    (d : TaskDefinition) (schema : TaskSchema)
    (h : (pySplit ':' schema.func).length ≠ 2) :
    ValidatedTaskSchema.from_unvalidated fileExists schema =
      .error (.taskDefinitionError
        ("Invalid function definition: " ++ schema.func))
    ∧ d._validate_schema schema =
      .error (.taskDefinitionError
        ("Invalid function definition: " ++ schema.func)) := by
  constructor
  · unfold ValidatedTaskSchema.from_unvalidated
    split
    · rename_i heq
      rw [heq] at h
      simp at h
    · rfl
  · unfold TaskDefinition._validate_schema
    split
    · rename_i heq
      rw [heq] at h
      simp at h
    · rfl

/-- Witness for C4 (amended): the zero-colon reference "nofunc" is
rejected with the malformed-reference error by both entry points. -/
theorem c4_malformed_split_rejected_witness :
    (pySplit ':' "nofunc").length ≠ 2 ∧
      (ValidatedTaskSchema.from_unvalidated (fun _ => true)
          { func := "nofunc" } =
        .error (.taskDefinitionError "Invalid function definition: nofunc")
      ∧ TaskDefinition._validate_schema { name := "t" } { func := "nofunc" } =
        .error (.taskDefinitionError "Invalid function definition: nofunc")) :=
  ⟨by decide, c4_malformed_split_rejected (fun _ => true) { name := "t" }
    { func := "nofunc" } (by decide)⟩

/-- Claim C5: with the tracker parameter present, a definition supplying
a non-empty params mapping to a task without a param schema fails with
the accepts-no-parameters `TaskDefinitionError`, and a task with a param
schema bound to a definition without params fails with the
requires-parameters `TaskDefinitionError`. -/
theorem c5_param_declaration_symmetry {TParams : Type} (d : TaskDefinition)
    (t : Task TParams) (s : TaskSchema)
    (htracker : "tracker" ∈ t.argNames) :
    (paramsTruthy d.params = true → t.param_schema = none →
      d.validate t s = .error (.taskDefinitionError ("Task " ++ t.name ++
        " does not accept parameters but Task definition defines them.")))
    ∧ (d.params = none → ∀ f, t.param_schema = some f →
      d.validate t s = .error (.taskDefinitionError ("Task " ++ t.name ++
        " requires parameters but Task definition does not define them."))) := by
  constructor
  · intro hp hs
    unfold TaskDefinition.validate
    rw [if_neg (not_not_intro htracker)]
    rw [if_pos (by rw [hp, hs]; rfl)]
  · intro hp f hs
    unfold TaskDefinition.validate
    rw [if_neg (not_not_intro htracker)]
    rw [if_neg (by rw [hp, hs]; simp [paramsTruthy])]
    rw [if_pos (by rw [hp, hs]; rfl)]

/-- Witness for C5: a definition with params bound to a schema-less task
fails with the accepts-no-parameters error. -/
theorem c5_param_declaration_symmetry_witness :
    "tracker" ∈ taskPlain.argNames ∧
    defSupplies.validate taskPlain sampleSchema = .error (.taskDefinitionError
      "Task t does not accept parameters but Task definition defines them.") :=
  ⟨by decide, (c5_param_declaration_symmetry defSupplies taskPlain sampleSchema
    (by decide)).1 (by decide) rfl⟩

/-- Claim C6: the claimed iff describes the body of
`ExperimentSchema.validate` (experiment.py lines 14 to 23), but that code
can never run.  Loading the module raises `SyntaxError` because
`get_task` ends the file with a whitespace-only body, and even with a
parseable body, executing the class body would raise `NameError` on the
unimported `TaskSchema` in the `tasks` field annotation.  No
`ExperimentSchema` instance can ever exist in the program, so the eager
validation pass is unreachable and cannot behave as the claim states.
This theorem records the two unconditional import-time failures. -/
theorem c6_experiment_module_never_loads :
    importOfYootExperiment = .error (.syntaxError
      "expected an indented block after function definition (get_task)")
    ∧ experimentSchemaClassCreation = .error (.nameError "TaskSchema") :=
  ⟨rfl, rfl⟩

/-- Counterexample to C7: with declared outputs a, b, the result keys
a, c are both missing b and carrying the undeclared key c, yet the
failure is exactly the same missing-outputs error raised when no
undeclared key is present at all — a single failure mentioning only the
missing output, not a combined report of both. -/
theorem c7_no_combined_report_counterexample :
    vdAB.validate_outputs [("a", .int 1), ("c", .int 3)] =
      .error (.taskDefinitionError "Task is missing expected outputs: b.")
    ∧ vdAB.validate_outputs [("a", .int 1)] =
      .error (.taskDefinitionError "Task is missing expected outputs: b.")
    ∧ (List.map Prod.fst [("a", PyValue.int 1), ("c", PyValue.int 3)]).toFinset \
        vdAB.outputs = {"c"} :=
  ⟨by decide, by decide, by decide⟩

/-- Claim C7 (amended): whenever at least one declared output is missing
from the actual result, `validate_outputs` fails with the
missing-expected-outputs `TaskDefinitionError` listing the missing
outputs only; unexpected keys are reported only when nothing is
missing. -/
theorem c7_missing_outputs_precedence (TParams : Type)
    (vd : ValidatedTaskDefinition TParams) (out : List (String × PyValue))
    (h : vd.outputs \ (out.map Prod.fst).toFinset ≠ ∅) :
    vd.validate_outputs out = .error (.taskDefinitionError
      ("Task is missing expected outputs: " ++
        joinSet (vd.outputs \ (out.map Prod.fst).toFinset) ++ ".")) := by
  simp only [ValidatedTaskDefinition.validate_outputs]
  rw [if_pos h]

/-- Witness for C7 (amended): at the missing-and-extra input, the error
is the missing-outputs error alone. -/
theorem c7_missing_outputs_precedence_witness :
    vdAB.outputs \ (List.map Prod.fst
      [("a", PyValue.int 1), ("c", PyValue.int 3)]).toFinset ≠ ∅ ∧
    vdAB.validate_outputs [("a", .int 1), ("c", .int 3)] =
      .error (.taskDefinitionError "Task is missing expected outputs: b.") :=
  ⟨by decide, c7_missing_outputs_precedence Unit vdAB
    [("a", .int 1), ("c", .int 3)] (by decide)⟩

/-- Claim C8: `TaskDefinition.validate` is modelled as a pure function of
the `(TaskDefinition, Task)` pair (the source mutates nothing and reads
nothing else), so validating the same pair twice yields equal
`ValidatedTaskDefinition` values. -/
theorem c8_validate_idempotent {TParams : Type} (d : TaskDefinition)
    (t : Task TParams) (s : TaskSchema)
    (v₁ v₂ : ValidatedTaskDefinition TParams)
    (h₁ : d.validate t s = .ok v₁) (h₂ : d.validate t s = .ok v₂) :
    v₁ = v₂ := by
  rw [h₁] at h₂
  exact Except.ok.inj h₂

/-- Witness for C8: two runs of a concrete successful validation agree. -/
theorem c8_validate_idempotent_witness :
    ({ name := "d", inputs := {"x"}, outputs := {"o"}, params := none } :
      ValidatedTaskDefinition Unit) =
    { name := "d", inputs := {"x"}, outputs := {"o"}, params := none } :=
  c8_validate_idempotent defX taskTX sampleSchema
    { name := "d", inputs := {"x"}, outputs := {"o"}, params := none }
    { name := "d", inputs := {"x"}, outputs := {"o"}, params := none }
    (by decide) (by decide)

/-- Claim C9: a definition whose params mapping is present but empty,
bound to a task that declares a param schema, is not rejected with the
requires-parameters error, the parameter mapping is never parsed (the
outcome does not depend on the parse function at all), and a successful
validation carries params = none. -/
theorem c9_empty_params_mapping_neutral {TParams : Type}
    (d : TaskDefinition) (t : Task TParams) (s : TaskSchema)
    (f : ParamsMap → Option TParams)
    (hp : d.params = some []) (hf : t.param_schema = some f) :
    (d.validate t s ≠ .error (.taskDefinitionError ("Task " ++ t.name ++
      " requires parameters but Task definition does not define them.")))
    ∧ (∀ g : ParamsMap → Option TParams,
        d.validate t s = d.validate { t with param_schema := some g } s)
    ∧ (∀ v, d.validate t s = .ok v → v.params = none) := by
  obtain ⟨tn, ta, tps⟩ := t
  simp only at hf
  subst hf
  have hval : ∀ g : ParamsMap → Option TParams,
      d.validate ⟨tn, ta, some g⟩ s =
        if "tracker" ∉ ta then
          .error (.taskDefinitionError
            ("Task " ++ tn ++ " is missing the tracker parameter."))
        else if (ta.erase "tracker").erase "params" ≠ d.inputs then
          .error (.taskDefinitionError
            ("Task " ++ tn ++ " inputs do not match the Task definition."))
        else
          .ok { name := d.name, params := none,
                inputs := d.inputs, outputs := d.outputs } := by
    intro g
    unfold TaskDefinition.validate
    rw [hp]
    simp only [paramsTruthy, parseParams, List.isEmpty_nil, Bool.not_true,
      Bool.false_and, Option.isNone_some, Bool.and_false, Bool.false_eq_true,
      if_false, if_true]
  refine ⟨?_, fun g => (hval f).trans (hval g).symm, ?_⟩
  · rw [hval f]
    by_cases h1 : "tracker" ∉ ta
    · rw [if_pos h1]
      simp only [ne_eq, Except.error.injEq, YootError.taskDefinitionError.injEq]
      exact append_suffix_ne tn " is missing the tracker parameter."
        " requires parameters but Task definition does not define them."
        (by decide)
    · rw [if_neg h1]
      by_cases h2 : (ta.erase "tracker").erase "params" ≠ d.inputs
      · rw [if_pos h2]
        simp only [ne_eq, Except.error.injEq,
          YootError.taskDefinitionError.injEq]
        exact append_suffix_ne tn " inputs do not match the Task definition."
          " requires parameters but Task definition does not define them."
          (by decide)
      · rw [if_neg h2]
        simp
  · intro v hvv
    rw [hval f] at hvv
    by_cases h1 : "tracker" ∉ ta
    · rw [if_pos h1] at hvv
      cases hvv
    · rw [if_neg h1] at hvv
      by_cases h2 : (ta.erase "tracker").erase "params" ≠ d.inputs
      · rw [if_pos h2] at hvv
        cases hvv
      · rw [if_neg h2] at hvv
        injection hvv with hh
        rw [← hh]

/-- Witness for C9: the empty-params definition bound to a schema-bearing
task does not produce the requires-parameters error. -/
theorem c9_empty_params_mapping_neutral_witness :
    defEmptyParams.validate taskSchemaed sampleSchema ≠
      .error (.taskDefinitionError
        "Task t requires parameters but Task definition does not define them.") :=
  (c9_empty_params_mapping_neutral defEmptyParams taskSchemaed sampleSchema
    (fun _ => some ()) rfl rfl).1

/-- Claim C10: the name params is discarded from the callable's
formal-parameter set unconditionally, so a definition whose declared
inputs contain "params" can never validate, whatever the bound callable
looks like. -/
theorem c10_params_input_never_validates {TParams : Type}
    (d : TaskDefinition) (t : Task TParams) (s : TaskSchema)
    (h : "params" ∈ d.inputs) :
    ∀ v, d.validate t s ≠ .ok v := by
  intro v hv
  unfold TaskDefinition.validate at hv
  by_cases h1 : "tracker" ∉ t.argNames
  · rw [if_pos h1] at hv
    cases hv
  · rw [if_neg h1] at hv
    by_cases h2 : (paramsTruthy d.params && t.param_schema.isNone) = true
    · rw [if_pos h2] at hv
      cases hv
    · rw [if_neg h2] at hv
      by_cases h3 : (d.params.isNone && t.param_schema.isSome) = true
      · rw [if_pos h3] at hv
        cases hv
      · rw [if_neg h3] at hv
        rcases hps : parseParams d.params t.param_schema with e | p
        · rw [hps] at hv
          cases hv
        · rw [hps] at hv
          dsimp only at hv
          by_cases h4 : (t.argNames.erase "tracker").erase "params" ≠ d.inputs
          · rw [if_pos h4] at hv
            cases hv
          · rw [if_neg h4] at hv
            have heq := not_ne_iff.mp h4
            rw [← heq] at h
            exact Finset.not_mem_erase _ _ h

/-- Witness for C10: the definition declaring input "params" does not
validate against a callable with parameters tracker and x. -/
theorem c10_params_input_never_validates_witness :
    defParamsInput.validate taskTX sampleSchema ≠
      .ok { name := "d", inputs := {"params"}, outputs := ∅, params := none } :=
  c10_params_input_never_validates defParamsInput taskTX sampleSchema
    (by decide) _

end Yoot
